import Mathlib

/-!
# Verification of the Nuake engine runtime core (`src/Nuake/Engine.cpp`)

Shallow embedding of the engine's game-state machine, play-mode entry/exit,
scene-switch queueing, and the per-frame `Tick` with its fixed-timestep drain
loop.  External collaborators (GLFW clock, filesystem, physics, audio, input,
window, subsystems) are modelled as oracles in an environment record or as
events appended to an observable trace; every state mutation performed by
`Engine.cpp` is mirrored on an explicit `Engine` record.

The model assumes a window with an installed current scene, which is the
regime of every property considered here: `EnterPlayMode`, `ExitPlayMode`
and the queued-switch branch of `Tick` all dereference
`GetCurrentScene()` unconditionally in the source.
-/

namespace Nuake

/-- `GameState` enum from the source: `{Stopped, Loading, Playing}`. -/
inductive GameState where
  | Stopped
  | Loading
  | Playing
deriving DecidableEq, Repr

/-- A scripted subsystem entry: its id and its `CanEverTick()` answer.
The subsystem list is possibly sparse (`Option`), as in the source where
null entries are skipped. -/
structure Subsystem where
  id : Nat
  canEverTick : Bool
deriving DecidableEq, Repr

/-- Observable effects of the engine on its collaborators, in call order.
Each constructor corresponds to one call site in `Engine.cpp`. -/
inductive Event where
  /-- `Logger::Log("Cannot enter play mode …", "engine", WARNING)` -/
  | warnAlreadyPlaying
  /-- `SetGameState(s)` / `gameState = s` assignment -/
  | setGameState (s : GameState)
  /-- `PhysicsManager::Get().ReInit()` -/
  | physicsReInit
  /-- `scene->OnInit()` returning `ok` -/
  | sceneOnInit (sceneId : Nat) (ok : Bool)
  /-- `scene->OnExit()` -/
  | sceneOnExit (sceneId : Nat)
  /-- `Logger::Log("Cannot enter play mode. Scene OnInit failed", …, CRITICAL)` -/
  | criticalSceneInitFailed
  /-- `Input::ShowMouse()` -/
  | showMouse
  /-- `Scene::New()` producing a fresh scene object -/
  | sceneNew (sceneId : Nat)
  /-- `nextScene->Deserialize(json::parse(fileContent))` after reading `path` -/
  | deserialize (sceneId : Nat) (path : String)
  /-- the window's scene pointer swap becoming visible (`Window::SetScene`) -/
  | sceneInstalled (sceneId : Nat)
  /-- `subsystem->OnScenePreDestroy(oldScene)` -/
  | preDestroyBroadcast (subId : Nat) (oldScene : Nat)
  /-- `subsystem->OnScenePreInitialize(scene)` -/
  | preInitBroadcast (subId : Nat) (sceneId : Nat)
  /-- `subsystem->OnScenePostInitialize(scene)` -/
  | postInitBroadcast (subId : Nat) (sceneId : Nat)
  /-- `subsystem->Tick(dt)` -/
  | subsystemTick (subId : Nat) (dt : ℚ)
  /-- `currentWindow->Update(dt)` -/
  | windowUpdate (dt : ℚ)
  /-- `GetCurrentScene()->EditorUpdate(dt)` -/
  | editorUpdate (sceneId : Nat) (dt : ℚ)
  /-- `currentWindow->FixedUpdate(dt)` (one drain-loop iteration) -/
  | fixedUpdate (dt : ℚ)
  /-- `Input::Update()` -/
  | inputUpdate
  /-- `AudioManager::Get().AudioUpdate()` -/
  | audioUpdate
deriving DecidableEq, Repr

/-- `Engine::fixedUpdateRate = 1.0f / 90.0f`; a static that no code in
`Engine.cpp` reassigns, so modelled as a constant. -/
def fixedUpdateRate : ℚ := 1 / 90

/-- The engine's static state relevant to the verified claims, one field per
static in `Engine.cpp`.  `windowSetSceneHandlerRegistered` records whether
`Engine::OnWindowSetScene` has been subscribed to the window's
`OnWindowSetScene()` signal (the subscription line in `Engine::Init` is
commented out in the source).  `engineHookedScenes` records the scenes on
whose pre/post-initialize signals `Engine::OnWindowSetScene` has installed
the engine's broadcast hooks. -/
structure Engine where
  gameState : GameState
  queuedScene : String
  lastFrameTime : ℚ
  fixedUpdateDifference : ℚ
  time : ℚ
  timeStep : ℚ
  timeScale : ℚ
  currentScene : Nat
  subsystems : List (Option Subsystem)
  windowSetSceneHandlerRegistered : Bool
  engineHookedScenes : List Nat
deriving DecidableEq, Repr

/-- Modelled from the spec: `Engine::IsPlayMode` is declared in the header
(not under `src/`); per the spec only `Playing` is play mode ("Only
`Playing` permits: (a) scripted-subsystem ticking, (b) scene-switch
queueing"), consistent with `OnScriptingEngineGameAssemblyLoaded` testing
`!IsPlayMode() && GetGameState() != GameState::Loading`. -/
def IsPlayMode (e : Engine) : Bool :=
  match e.gameState with
  | GameState.Playing => true
  | _ => false

/-- The engine state after `Engine::Init` given the statics' initializers
(lines 28–39): `Stopped`, empty queue, zero clocks, `timeScale = 1`.
The subscription of `Engine::OnWindowSetScene` to the window's signal is
commented out in `Engine::Init` (line 43), hence
`windowSetSceneHandlerRegistered := false`.  `scene` is the id of the scene
installed on the window; `subs` the scripted-subsystem list. -/
def initialEngine (scene : Nat) (subs : List (Option Subsystem) := []) : Engine where
  gameState := GameState.Stopped
  queuedScene := ""
  lastFrameTime := 0
  fixedUpdateDifference := 0
  time := 0
  timeStep := 0
  timeScale := 1
  currentScene := scene
  subsystems := subs
  windowSetSceneHandlerRegistered := false
  engineHookedScenes := []

/-- `Engine::OnWindowSetScene(oldScene, newScene)` (source lines 262–280):
broadcasts `OnScenePreDestroy(oldScene)` to every non-null subsystem, then
hooks the engine's pre/post-initialize broadcasts onto the new scene's
signals. -/
def OnWindowSetScene (oldScene newScene : Nat) (e : Engine) : Engine × List Event :=
  ({ e with engineHookedScenes := newScene :: e.engineHookedScenes },
   (e.subsystems.filterMap id).map fun sub => Event.preDestroyBroadcast sub.id oldScene)

/-- Modelled from the spec: `Window::SetScene` is not under `src/`.  Per the
spec, scene installation fires the window's `OnWindowSetScene(old, new)`
signal — to which `Engine::OnWindowSetScene` is subscribed only if the
(commented-out) registration in `Engine::Init` ran — "before the swap is
visible", then installs the new scene as current.
`Engine::SetCurrentScene` (lines 222–225) just forwards to it. -/
def SetCurrentScene (scene : Nat) (e : Engine) : Engine × List Event :=
  if e.windowSetSceneHandlerRegistered then
    let p := OnWindowSetScene e.currentScene scene e
    ({ p.1 with currentScene := scene }, p.2 ++ [Event.sceneInstalled scene])
  else
    ({ e with currentScene := scene }, [Event.sceneInstalled scene])

/-- Modelled from the spec: the scene's `OnInit` body is not under `src/`.
Per the spec, "once the new scene's own pre/post-initialize signals fire",
the engine's hooks (when installed on that scene by
`Engine::OnWindowSetScene`) broadcast `OnScenePreInitialize` and
`OnScenePostInitialize` to every subsystem (source lines 321–341). -/
def sceneOnInitEvents (e : Engine) (s : Nat) (ok : Bool) : List Event :=
  Event.sceneOnInit s ok ::
    (if e.engineHookedScenes.contains s then
      (e.subsystems.filterMap id).map (fun sub => Event.preInitBroadcast sub.id s)
        ++ (e.subsystems.filterMap id).map (fun sub => Event.postInitBroadcast sub.id s)
    else [])

/-- `Engine::EnterPlayMode` (lines 145–169).  `now` is `glfwGetTime()`;
`onInitOk` is the oracle for `GetCurrentScene()->OnInit()`.  Note that
`lastFrameTime` is reset *before* the already-playing guard. -/
def EnterPlayMode (now : ℚ) (onInitOk : Bool) (e : Engine) : Engine × List Event :=
  let e := { e with lastFrameTime := now }
  if e.gameState = GameState.Playing ∨ e.gameState = GameState.Loading then
    (e, [Event.warnAlreadyPlaying])
  else
    let e := { e with gameState := GameState.Loading }
    let initEvs := sceneOnInitEvents e e.currentScene onInitOk
    if onInitOk then
      ({ e with gameState := GameState.Playing },
       Event.setGameState GameState.Loading :: Event.physicsReInit :: initEvs
         ++ [Event.setGameState GameState.Playing])
    else
      (e, Event.setGameState GameState.Loading :: Event.physicsReInit :: initEvs
         ++ [Event.criticalSceneInitFailed, Event.sceneOnExit e.currentScene])

/-- `Engine::ExitPlayMode` (lines 171–180): no-op when `Stopped`, otherwise
`OnExit`, show mouse, set `Stopped` unconditionally. -/
def ExitPlayMode (e : Engine) : Engine × List Event :=
  if e.gameState = GameState.Stopped then
    (e, [])
  else
    ({ e with gameState := GameState.Stopped },
     [Event.sceneOnExit e.currentScene, Event.showMouse,
      Event.setGameState GameState.Stopped])

/-- `Engine::QueueSceneSwitch` (lines 227–237): fails without effect unless
play mode; otherwise records the path (overwriting any previous one). -/
def QueueSceneSwitch (scenePath : String) (e : Engine) : Bool × Engine :=
  if ¬ IsPlayMode e then
    (false, e)
  else
    (true, { e with queuedScene := scenePath })

/-- The fixed-update drain loop of `Engine::Tick` (lines 133–138):
`while (fixedUpdateDifference >= fixedUpdateRate) fixedUpdateDifference -= fixedUpdateRate;`
Returns the final accumulator value and the number of iterations (i.e. of
`currentWindow->FixedUpdate` calls). -/
def fixedUpdateDrain (diff : ℚ) : ℚ × Nat :=
  if h : fixedUpdateRate ≤ diff then
    let p := fixedUpdateDrain (diff - fixedUpdateRate)
    (p.1, p.2 + 1)
  else
    (diff, 0)
termination_by (Int.ceil (diff * 90)).toNat
decreasing_by
  have h90 : ((1 : ℚ) / 90) * 90 = 1 := by norm_num
  have h1 : (1 : ℚ) ≤ diff * 90 := by
    have := mul_le_mul_of_nonneg_right h (by norm_num : (0 : ℚ) ≤ 90)
    simpa [fixedUpdateRate, h90] using this
  have hsub : (diff - fixedUpdateRate) * 90 = diff * 90 - 1 := by
    simp only [fixedUpdateRate]; ring
  have hceil : Int.ceil ((diff - fixedUpdateRate) * 90) = Int.ceil (diff * 90) - 1 := by
    rw [hsub]; exact Int.ceil_sub_one (diff * 90)
  have hone : (1 : ℤ) ≤ Int.ceil (diff * 90) := by
    calc (1 : ℤ) = Int.ceil (1 : ℚ) := by simp
    _ ≤ Int.ceil (diff * 90) := Int.ceil_le_ceil h1
  simp only [hceil]
  omega

/-- Per-frame environment: `glfwGetTime()`, the filesystem oracle, the id of
the scene object a `Scene::New()` call would produce, and the outcome of the
(ignored) `OnInit` call on a freshly swapped-in scene. -/
structure TickEnv where
  now : ℚ
  fileExists : String → Bool
  freshSceneId : Nat
  onInitOk : Bool

/-- The queued-scene-switch block of `Engine::Tick` (lines 75–100): in play
mode with a non-empty queued path, make a new scene, and if the file exists,
read+deserialize it, `OnExit` the current scene, install the new one,
reinitialize physics, `OnInit` the new scene, and clear the queue.  When the
file does not exist nothing else happens (queue kept). -/
def resolveQueuedScene (env : TickEnv) (e : Engine) : Engine × List Event :=
  if IsPlayMode e then
    if e.queuedScene ≠ "" then
      let nextScene := env.freshSceneId
      if env.fileExists e.queuedScene then
        let p := SetCurrentScene nextScene e
        ({ p.1 with queuedScene := "" },
         Event.sceneNew nextScene :: Event.deserialize nextScene e.queuedScene
           :: Event.sceneOnExit e.currentScene :: p.2
           ++ Event.physicsReInit :: sceneOnInitEvents p.1 nextScene env.onInitOk)
      else
        (e, [Event.sceneNew nextScene])
    else (e, [])
  else (e, [])

/-- The post-swap part of `Engine::Tick` (lines 102–142): subsystem ticking
(play mode only), window update, editor update (edit mode only), the
fixed-update accumulation and drain, input and audio updates.  The model
assumes a scene is installed, so the `currentWindow->GetScene()` guard is
taken. -/
def tickRest (e : Engine) : Engine × List Event :=
  let scaledTimeStep := e.timeStep * e.timeScale
  let subsEvs :=
    if IsPlayMode e then
      (e.subsystems.filterMap id).filterMap fun sub =>
        if sub.canEverTick then some (Event.subsystemTick sub.id scaledTimeStep)
        else none
    else []
  let editorEvs :=
    if ¬ IsPlayMode e then [Event.editorUpdate e.currentScene scaledTimeStep]
    else []
  let dr := fixedUpdateDrain (e.fixedUpdateDifference + e.timeStep)
  ({ e with fixedUpdateDifference := dr.1 },
   subsEvs ++ [Event.windowUpdate scaledTimeStep] ++ editorEvs
     ++ List.replicate dr.2 (Event.fixedUpdate (fixedUpdateRate * e.timeScale))
     ++ [Event.inputUpdate, Event.audioUpdate])

/-- `Engine::Tick` (lines 65–143): update the clocks from `glfwGetTime()`,
resolve any queued scene switch, then run the per-frame updates. -/
def Tick (env : TickEnv) (e : Engine) : Engine × List Event :=
  let e := { e with
    time := env.now
    timeStep := env.now - e.lastFrameTime
    lastFrameTime := env.now }
  let p1 := resolveQueuedScene env e
  let p2 := tickRest p1.1
  (p2.1, p1.2 ++ p2.2)

/-- Iterated `Tick` over a list of per-frame environments, accumulating the
event trace. -/
def runTicks : List TickEnv → Engine → Engine × List Event
  | [], e => (e, [])
  | env :: envs, e =>
    let p1 := Tick env e
    let p2 := runTicks envs p1.1
    (p2.1, p1.2 ++ p2.2)

/-- One call of a play-mode session: `EnterPlayMode` (with its clock reading
and `OnInit` outcome) or `ExitPlayMode`. -/
inductive PlayCall where
  | enter (now : ℚ) (onInitOk : Bool)
  | exitPM
deriving Repr

/-- Dispatch one `PlayCall`. -/
def playStep : PlayCall → Engine → Engine × List Event
  | PlayCall.enter now ok, e => EnterPlayMode now ok e
  | PlayCall.exitPM, e => ExitPlayMode e

/-- Run a sequence of `EnterPlayMode`/`ExitPlayMode` calls, accumulating the
event trace. -/
def runCalls : List PlayCall → Engine → Engine × List Event
  | [], e => (e, [])
  | c :: cs, e =>
    let p1 := playStep c e
    let p2 := runCalls cs p1.1
    (p2.1, p1.2 ++ p2.2)

/-- The successive values assigned to `gameState` in a trace. -/
def stateChanges (evs : List Event) : List GameState :=
  evs.filterMap fun ev =>
    match ev with
    | Event.setGameState s => some s
    | _ => none

/-- The edges of the game-state graph:
`Stopped → Loading → Playing → Stopped`, plus `Loading → Stopped`. -/
def edge : GameState → GameState → Bool
  | GameState.Stopped, GameState.Loading => true
  | GameState.Loading, GameState.Playing => true
  | GameState.Playing, GameState.Stopped => true
  | GameState.Loading, GameState.Stopped => true
  | _, _ => false

/-- `chainFrom s l`: starting at `s`, every successive state in `l` is
reached by an `edge` from its predecessor. -/
def chainFrom : GameState → List GameState → Bool
  | _, [] => true
  | s, t :: rest => edge s t && chainFrom t rest

/-- Last element of a state list, defaulting to `d` when empty. -/
def lastD (d : GameState) : List GameState → GameState
  | [] => d
  | s :: rest => lastD s rest

/-- Number of `OnInit` calls in a trace. -/
def onInitCount (evs : List Event) : Nat :=
  evs.countP fun ev =>
    match ev with
    | Event.sceneOnInit _ _ => true
    | _ => false

/-- Number of `OnExit` calls in a trace. -/
def onExitCount (evs : List Event) : Nat :=
  evs.countP fun ev =>
    match ev with
    | Event.sceneOnExit _ => true
    | _ => false

/-- Number of scene-swap effects in a trace: `OnExit`, `OnInit`, scene
installation and physics reinitialization. -/
def swapEventCount (evs : List Event) : Nat :=
  evs.countP fun ev =>
    match ev with
    | Event.sceneOnExit _ => true
    | Event.sceneOnInit _ _ => true
    | Event.sceneInstalled _ => true
    | Event.physicsReInit => true
    | _ => false

/-- Number of subsystem scene-lifecycle broadcasts in a trace
(`OnScenePreDestroy`, `OnScenePreInitialize`, `OnScenePostInitialize`). -/
def broadcastCount (evs : List Event) : Nat :=
  evs.countP fun ev =>
    match ev with
    | Event.preDestroyBroadcast _ _ => true
    | Event.preInitBroadcast _ _ => true
    | Event.postInitBroadcast _ _ => true
    | _ => false

/-- Number of scene installations in a trace. -/
def installedCount (evs : List Event) : Nat :=
  evs.countP fun ev =>
    match ev with
    | Event.sceneInstalled _ => true
    | _ => false

/-- The per-frame update effects (as opposed to scene-lifecycle and
broadcast effects); the post-swap part of `Tick` emits only these. -/
def isFrameEvent : Event → Bool
  | Event.subsystemTick _ _ => true
  | Event.windowUpdate _ => true
  | Event.editorUpdate _ _ => true
  | Event.fixedUpdate _ => true
  | Event.inputUpdate => true
  | Event.audioUpdate => true
  | _ => false

/-! ## Concrete sample states, used by witnesses and counterexamples -/

/-- A sparse subsystem list: two live subsystems (one ticking, one not) and
a null entry. -/
def sampleSubsystems : List (Option Subsystem) :=
  [some ⟨0, true⟩, none, some ⟨1, false⟩]

/-- An engine in play mode with scene `5` installed. -/
def samplePlaying : Engine :=
  { initialEngine 5 sampleSubsystems with gameState := GameState.Playing }

/-- A playing engine with a queued scene path. -/
def sampleQueued : Engine :=
  { samplePlaying with queuedScene := "scenes/next.scene" }

/-- A frame environment in which every file exists. -/
def sampleEnvExists : TickEnv :=
  { now := 0, fileExists := fun _ => true, freshSceneId := 9, onInitOk := true }

/-- A frame environment in which no file exists. -/
def sampleEnvMissing : TickEnv :=
  { now := 0, fileExists := fun _ => false, freshSceneId := 9, onInitOk := true }

/-! ## Helper lemmas -/

lemma stateChanges_append (l1 l2 : List Event) :
    stateChanges (l1 ++ l2) = stateChanges l1 ++ stateChanges l2 :=
  List.filterMap_append l1 l2 _

lemma stateChanges_nil : stateChanges [] = [] := rfl

lemma stateChanges_cons_set (s : GameState) (l : List Event) :
    stateChanges (Event.setGameState s :: l) = s :: stateChanges l := rfl

lemma stateChanges_cons_warn (l : List Event) :
    stateChanges (Event.warnAlreadyPlaying :: l) = stateChanges l := rfl

lemma stateChanges_cons_physics (l : List Event) :
    stateChanges (Event.physicsReInit :: l) = stateChanges l := rfl

lemma stateChanges_cons_critical (l : List Event) :
    stateChanges (Event.criticalSceneInitFailed :: l) = stateChanges l := rfl

lemma stateChanges_cons_onExit (s : Nat) (l : List Event) :
    stateChanges (Event.sceneOnExit s :: l) = stateChanges l := rfl

lemma stateChanges_cons_showMouse (l : List Event) :
    stateChanges (Event.showMouse :: l) = stateChanges l := rfl

lemma chainFrom_append (s : GameState) (l1 l2 : List GameState) :
    chainFrom s (l1 ++ l2) = (chainFrom s l1 && chainFrom (lastD s l1) l2) := by
  induction l1 generalizing s with
  | nil => simp [chainFrom, lastD]
  | cons t rest ih => simp [chainFrom, lastD, ih, Bool.and_assoc]

lemma lastD_append (d : GameState) (l1 l2 : List GameState) :
    lastD d (l1 ++ l2) = lastD (lastD d l1) l2 := by
  induction l1 generalizing d with
  | nil => simp [lastD]
  | cons t rest ih => simp [lastD, ih]

lemma stateChanges_sceneOnInitEvents (e : Engine) (s : Nat) (ok : Bool) :
    stateChanges (sceneOnInitEvents e s ok) = [] := by
  unfold sceneOnInitEvents stateChanges
  split
  · simp [List.filterMap_append, List.filterMap_map]
  · simp

/-- The states a non-`Stopped` engine can be in. -/
lemma gameState_cases (e : Engine)
    (h : ¬ (e.gameState = GameState.Playing ∨ e.gameState = GameState.Loading)) :
    e.gameState = GameState.Stopped := by
  cases hs : e.gameState <;> simp [hs] at h ⊢

/-- One `EnterPlayMode`/`ExitPlayMode` call moves the game state only along
`edge`s, and the last assigned state is the state the call leaves behind. -/
lemma playStep_trace (c : PlayCall) (e : Engine) :
    chainFrom e.gameState (stateChanges (playStep c e).2) = true ∧
    lastD e.gameState (stateChanges (playStep c e).2) = (playStep c e).1.gameState := by
  cases c with
  | enter now ok =>
    simp only [playStep, EnterPlayMode]
    by_cases hp : e.gameState = GameState.Playing ∨ e.gameState = GameState.Loading
    · simp [hp, stateChanges_cons_warn, stateChanges_nil, chainFrom, lastD]
    · have hs : e.gameState = GameState.Stopped := gameState_cases e hp
      cases ok with
      | true =>
        simp [hp, hs, stateChanges_append, chainFrom_append, lastD_append,
          stateChanges_cons_set, stateChanges_cons_physics, stateChanges_nil,
          stateChanges_sceneOnInitEvents, chainFrom, lastD, edge]
      | false =>
        simp [hp, hs, stateChanges_append, chainFrom_append, lastD_append,
          stateChanges_cons_set, stateChanges_cons_physics, stateChanges_nil,
          stateChanges_cons_critical, stateChanges_cons_onExit,
          stateChanges_sceneOnInitEvents, chainFrom, lastD, edge]
  | exitPM =>
    simp only [playStep, ExitPlayMode]
    by_cases hp : e.gameState = GameState.Stopped
    · simp [hp, stateChanges_nil, chainFrom, lastD]
    · cases hs : e.gameState with
      | Stopped => exact absurd hs hp
      | Loading =>
        simp [hp, hs, stateChanges_cons_onExit, stateChanges_cons_showMouse,
          stateChanges_cons_set, stateChanges_nil, chainFrom, lastD, edge]
      | Playing =>
        simp [hp, hs, stateChanges_cons_onExit, stateChanges_cons_showMouse,
          stateChanges_cons_set, stateChanges_nil, chainFrom, lastD, edge]

/-- A whole call sequence moves the game state only along `edge`s. -/
lemma runCalls_trace (calls : List PlayCall) (e : Engine) :
    chainFrom e.gameState (stateChanges (runCalls calls e).2) = true ∧
    lastD e.gameState (stateChanges (runCalls calls e).2) =
      (runCalls calls e).1.gameState := by
  induction calls generalizing e with
  | nil => simp [runCalls, stateChanges, chainFrom, lastD]
  | cons c cs ih =>
    have h1 := playStep_trace c e
    have h2 := ih (playStep c e).1
    simp only [runCalls, stateChanges_append, chainFrom_append, lastD_append]
    refine ⟨?_, ?_⟩
    · rw [h1.1, h1.2, Bool.true_and]
      exact h2.1
    · rw [h1.2]
      exact h2.2

lemma onInitCount_append (l1 l2 : List Event) :
    onInitCount (l1 ++ l2) = onInitCount l1 + onInitCount l2 :=
  List.countP_append _ _ _

lemma onExitCount_append (l1 l2 : List Event) :
    onExitCount (l1 ++ l2) = onExitCount l1 + onExitCount l2 :=
  List.countP_append _ _ _

lemma swapEventCount_append (l1 l2 : List Event) :
    swapEventCount (l1 ++ l2) = swapEventCount l1 + swapEventCount l2 :=
  List.countP_append _ _ _

lemma broadcastCount_append (l1 l2 : List Event) :
    broadcastCount (l1 ++ l2) = broadcastCount l1 + broadcastCount l2 :=
  List.countP_append _ _ _

/-- `Window::SetScene` always installs the scene, emits the installation
preceded only by possible pre-destroy broadcasts (no `OnInit`/`OnExit`
call), and touches no other engine field. -/
lemma setCurrentScene_spec (scene : Nat) (e : Engine) :
    ∃ pre,
      (SetCurrentScene scene e).2 = pre ++ [Event.sceneInstalled scene] ∧
      onInitCount pre = 0 ∧ onExitCount pre = 0 ∧
      (SetCurrentScene scene e).1.currentScene = scene ∧
      (SetCurrentScene scene e).1.queuedScene = e.queuedScene ∧
      (SetCurrentScene scene e).1.gameState = e.gameState ∧
      (SetCurrentScene scene e).1.subsystems = e.subsystems := by
  unfold SetCurrentScene OnWindowSetScene
  by_cases hreg : e.windowSetSceneHandlerRegistered
  · refine ⟨(e.subsystems.filterMap id).map
      (fun sub => Event.preDestroyBroadcast sub.id e.currentScene),
      by simp [hreg], ?_, ?_, by simp [hreg], by simp [hreg], by simp [hreg],
      by simp [hreg]⟩ <;>
    · simp only [onInitCount, onExitCount, List.countP_map]
      rw [List.countP_eq_zero]
      intro sub _
      simp
  · exact ⟨[], by simp [hreg], rfl, rfl, by simp [hreg], by simp [hreg],
      by simp [hreg], by simp [hreg]⟩

/-- A scene's `OnInit` trace is the `OnInit` call followed by possible
pre/post-initialize broadcasts; it contains exactly one `OnInit` and no
`OnExit`. -/
lemma sceneOnInitEvents_spec (e : Engine) (s : Nat) (ok : Bool) :
    ∃ tail,
      sceneOnInitEvents e s ok = Event.sceneOnInit s ok :: tail ∧
      onInitCount tail = 0 ∧ onExitCount tail = 0 := by
  unfold sceneOnInitEvents
  split
  · refine ⟨_, rfl, ?_, ?_⟩ <;>
    · simp only [onInitCount, onExitCount, List.countP_append,
        List.countP_map]
      simp [Function.comp]
  · exact ⟨[], rfl, rfl, rfl⟩

/-- Every event that the post-swap part of `Tick` emits is a per-frame
update, never a scene-lifecycle or broadcast effect. -/
lemma mem_tickRest (e : Engine) (ev : Event) (hev : ev ∈ (tickRest e).2) :
    isFrameEvent ev = true := by
  unfold tickRest at hev
  simp only [List.mem_append, List.mem_cons, List.mem_singleton,
    List.mem_replicate, List.not_mem_nil, or_false] at hev
  rcases hev with (((h | h) | h) | h) | h | h
  · split at h
    · simp only [List.mem_filterMap] at h
      obtain ⟨sub, _, hf⟩ := h
      split at hf
      · rw [← Option.some_inj.mp hf]
        rfl
      · cases hf
    · cases h
  · rw [h]
    rfl
  · split at h
    · simp only [List.mem_singleton] at h
      rw [h]
      rfl
    · cases h
  · rw [h.2]
    rfl
  · rw [h]
    rfl
  · rw [h]
    rfl

/-- The post-swap part of `Tick` performs no scene-lifecycle effect and no
subsystem scene broadcast. -/
lemma tickRest_counts (e : Engine) :
    onInitCount (tickRest e).2 = 0 ∧ onExitCount (tickRest e).2 = 0 ∧
    swapEventCount (tickRest e).2 = 0 ∧ broadcastCount (tickRest e).2 = 0 := by
  refine ⟨?_, ?_, ?_, ?_⟩ <;>
  · simp only [onInitCount, onExitCount, swapEventCount, broadcastCount]
    rw [List.countP_eq_zero]
    intro ev hev
    have h := mem_tickRest e ev hev
    cases ev <;> simp_all [isFrameEvent]

/-- The post-swap part of `Tick` only rewrites the fixed-update
accumulator. -/
lemma tickRest_state (e : Engine) :
    (tickRest e).1 =
      { e with fixedUpdateDifference :=
          (fixedUpdateDrain (e.fixedUpdateDifference + e.timeStep)).1 } := by
  unfold tickRest
  rfl

/-- The scene-swap block leaves the timing fields alone. -/
lemma resolveQueuedScene_timing (env : TickEnv) (e : Engine) :
    (resolveQueuedScene env e).1.fixedUpdateDifference =
      e.fixedUpdateDifference ∧
    (resolveQueuedScene env e).1.timeStep = e.timeStep ∧
    (resolveQueuedScene env e).1.timeScale = e.timeScale := by
  unfold resolveQueuedScene SetCurrentScene OnWindowSetScene
  repeat' split
  all_goals simp

/-- The scene-swap block of `Tick` taken with a present file: its exact
result. -/
lemma resolveQueuedScene_swap (env : TickEnv) (e : Engine)
    (hp : e.gameState = GameState.Playing) (hq : e.queuedScene ≠ "")
    (hex : env.fileExists e.queuedScene = true) :
    resolveQueuedScene env e =
      ({ (SetCurrentScene env.freshSceneId e).1 with queuedScene := "" },
       Event.sceneNew env.freshSceneId ::
         Event.deserialize env.freshSceneId e.queuedScene ::
         Event.sceneOnExit e.currentScene ::
         (SetCurrentScene env.freshSceneId e).2 ++
         Event.physicsReInit ::
         sceneOnInitEvents (SetCurrentScene env.freshSceneId e).1
           env.freshSceneId env.onInitOk) := by
  unfold resolveQueuedScene
  simp [IsPlayMode, hp, hq, hex]

/-- The scene-swap block does nothing when the queued file is absent (queue
kept, only the fresh scene allocation happens) or the queue is empty or the
engine is not playing. -/
lemma resolveQueuedScene_skip (env : TickEnv) (e : Engine)
    (h : e.gameState ≠ GameState.Playing ∨ e.queuedScene = "" ∨
      env.fileExists e.queuedScene = false) :
    (resolveQueuedScene env e).1 = e ∧
    onInitCount (resolveQueuedScene env e).2 = 0 ∧
    onExitCount (resolveQueuedScene env e).2 = 0 ∧
    swapEventCount (resolveQueuedScene env e).2 = 0 ∧
    broadcastCount (resolveQueuedScene env e).2 = 0 := by
  unfold resolveQueuedScene
  rcases h with h | h | h
  · have : IsPlayMode e = false := by
      unfold IsPlayMode
      cases hs : e.gameState <;> simp_all
    simp [this, onInitCount, onExitCount, swapEventCount, broadcastCount]
  · by_cases hp : IsPlayMode e <;>
      simp [hp, h, onInitCount, onExitCount, swapEventCount, broadcastCount]
  · by_cases hp : IsPlayMode e <;>
      by_cases hq : e.queuedScene = "" <;>
      simp [hp, hq, h, onInitCount, onExitCount, swapEventCount,
        broadcastCount]

/-- A frame in which the scene-swap block does not fire (not playing, no
queued path, or the queued file absent) keeps the queued path and the
current scene and performs no swap effect. -/
lemma tick_no_swap_step (env : TickEnv) (e : Engine)
    (h : e.gameState ≠ GameState.Playing ∨ e.queuedScene = "" ∨
      env.fileExists e.queuedScene = false) :
    (Tick env e).1.queuedScene = e.queuedScene ∧
    (Tick env e).1.currentScene = e.currentScene ∧
    swapEventCount (Tick env e).2 = 0 := by
  set e1 : Engine := { e with
    time := env.now
    timeStep := env.now - e.lastFrameTime
    lastFrameTime := env.now } with he1
  have h1 : e1.gameState ≠ GameState.Playing ∨ e1.queuedScene = "" ∨
      env.fileExists e1.queuedScene = false := h
  have hskip := resolveQueuedScene_skip env e1 h1
  have hTick1 : (Tick env e).1 = (tickRest (resolveQueuedScene env e1).1).1 :=
    rfl
  have hTick2 : (Tick env e).2 =
      (resolveQueuedScene env e1).2 ++
        (tickRest (resolveQueuedScene env e1).1).2 := rfl
  refine ⟨?_, ?_, ?_⟩
  · rw [hTick1, tickRest_state]
    simp [hskip.1]
  · rw [hTick1, tickRest_state]
    simp [hskip.1]
  · rw [hTick2, swapEventCount_append, hskip.2.2.2.1,
      (tickRest_counts (resolveQueuedScene env e1).1).2.2.1]

lemma fixedUpdateRate_pos : 0 < fixedUpdateRate := by
  norm_num [fixedUpdateRate]

lemma fixedUpdateDrain_of_lt (d : ℚ) (h : d < fixedUpdateRate) :
    fixedUpdateDrain d = (d, 0) := by
  rw [fixedUpdateDrain]
  simp [not_le.mpr h]

lemma fixedUpdateDrain_of_le (d : ℚ) (h : fixedUpdateRate ≤ d) :
    fixedUpdateDrain d =
      ((fixedUpdateDrain (d - fixedUpdateRate)).1,
       (fixedUpdateDrain (d - fixedUpdateRate)).2 + 1) := by
  rw [fixedUpdateDrain]
  simp [h]

/-- Closed form of the drain loop: starting from a remainder `d` below the
rate plus `n` whole rates, the loop runs exactly `n` times and leaves `d`. -/
lemma fixedUpdateDrain_add_nat (n : Nat) (d : ℚ) (h0 : 0 ≤ d)
    (h1 : d < fixedUpdateRate) :
    fixedUpdateDrain (d + n * fixedUpdateRate) = (d, n) := by
  induction n with
  | zero => simpa using fixedUpdateDrain_of_lt d h1
  | succ n ih =>
    have hge : fixedUpdateRate ≤ d + (n + 1 : Nat) * fixedUpdateRate := by
      have hn : (0 : ℚ) ≤ (n : ℚ) * fixedUpdateRate :=
        mul_nonneg (Nat.cast_nonneg n) (le_of_lt fixedUpdateRate_pos)
      push_cast
      nlinarith
    rw [fixedUpdateDrain_of_le _ hge]
    have hsub : d + (n + 1 : Nat) * fixedUpdateRate - fixedUpdateRate =
        d + (n : Nat) * fixedUpdateRate := by
      push_cast
      ring
    rw [hsub, ih]

/-- Invariants of the drain loop: the final accumulator is the initial one
minus `count` rates, is always below the rate, and never goes negative when
it starts nonnegative. -/
lemma fixedUpdateDrain_spec : ∀ d : ℚ,
    (fixedUpdateDrain d).1 = d - (fixedUpdateDrain d).2 * fixedUpdateRate ∧
    (fixedUpdateDrain d).1 < fixedUpdateRate ∧
    (0 ≤ d → 0 ≤ (fixedUpdateDrain d).1) := by
  intro d
  generalize hn : (Int.ceil (d * 90)).toNat = n
  induction n using Nat.strong_induction_on generalizing d with
  | _ n ih =>
    by_cases h : fixedUpdateRate ≤ d
    · have hdec : (Int.ceil ((d - fixedUpdateRate) * 90)).toNat < n := by
        have h90 : ((1 : ℚ) / 90) * 90 = 1 := by norm_num
        have h1 : (1 : ℚ) ≤ d * 90 := by
          have := mul_le_mul_of_nonneg_right h (by norm_num : (0 : ℚ) ≤ 90)
          simpa [fixedUpdateRate, h90] using this
        have hsub : (d - fixedUpdateRate) * 90 = d * 90 - 1 := by
          simp only [fixedUpdateRate]
          ring
        have hceil : Int.ceil ((d - fixedUpdateRate) * 90) =
            Int.ceil (d * 90) - 1 := by
          rw [hsub]
          exact Int.ceil_sub_one (d * 90)
        have hone : (1 : ℤ) ≤ Int.ceil (d * 90) := by
          calc (1 : ℤ) = Int.ceil (1 : ℚ) := by simp
          _ ≤ Int.ceil (d * 90) := Int.ceil_le_ceil h1
        rw [← hn, hceil]
        omega
      have hrec := ih _ hdec (d - fixedUpdateRate) rfl
      rw [fixedUpdateDrain_of_le d h]
      refine ⟨?_, hrec.2.1, fun _ => ?_⟩
      · rw [hrec.1]
        push_cast
        ring
      · have hd0 : 0 ≤ d - fixedUpdateRate := sub_nonneg.mpr h
        exact hrec.2.2 hd0
    · push_neg at h
      rw [fixedUpdateDrain_of_lt d h]
      exact ⟨by simp, h, fun h0 => h0⟩

/-! ## Claims -/

/-- C1: For every sequence of `EnterPlayMode` and `ExitPlayMode` calls
starting from the initial `Stopped` state, the game state only moves along
the graph `Stopped → Loading → Playing → Stopped` (plus
`Loading → Stopped` on failure); and calling `EnterPlayMode` while the
state is `Playing` or `Loading` never runs the current scene's `OnInit`. -/
theorem C1_state_graph_no_double_onInit :
    (∀ (scene : Nat) (subs : List (Option Subsystem)) (calls : List PlayCall),
      chainFrom GameState.Stopped
        (stateChanges (runCalls calls (initialEngine scene subs)).2) = true) ∧
    (∀ (now : ℚ) (ok : Bool) (e : Engine),
      e.gameState = GameState.Playing ∨ e.gameState = GameState.Loading →
      onInitCount (EnterPlayMode now ok e).2 = 0) := by
  constructor
  · intro scene subs calls
    have h := (runCalls_trace calls (initialEngine scene subs)).1
    simpa [initialEngine] using h
  · intro now ok e hp
    simp [EnterPlayMode, hp, onInitCount]

/-- Witness for C1: a concrete playing engine on which a second
`EnterPlayMode` runs no `OnInit`. -/
theorem C1_state_graph_no_double_onInit_witness :
    (samplePlaying.gameState = GameState.Playing ∨
      samplePlaying.gameState = GameState.Loading) ∧
    onInitCount (EnterPlayMode 1 true samplePlaying).2 = 0 :=
  ⟨Or.inl rfl,
   C1_state_graph_no_double_onInit.2 1 true samplePlaying (Or.inl rfl)⟩

/-- Counterexample to C3 as stated: with the engine already `Playing`,
`EnterPlayMode` at time `1` still changes `lastFrameTime` (from `0` to `1`),
because the source resets the frame-timing clock before the already-playing
guard (line 147). -/
theorem C3_counterexample :
    (EnterPlayMode 1 true samplePlaying).1.lastFrameTime ≠
      samplePlaying.lastFrameTime := by
  simp [EnterPlayMode, samplePlaying, initialEngine, sampleSubsystems]

/-- C3 (amended): when the state is already `Playing` or `Loading`,
`EnterPlayMode` logs a warning and resets `lastFrameTime` to the current
time, and changes nothing else: the result is exactly the input engine with
`lastFrameTime := now`, and the only effect is the warning (in particular no
physics reinitialization and no scene hook runs). -/
theorem C3_noop_except_lastFrameTime :
    ∀ (now : ℚ) (ok : Bool) (e : Engine),
      e.gameState = GameState.Playing ∨ e.gameState = GameState.Loading →
      EnterPlayMode now ok e =
        ({ e with lastFrameTime := now }, [Event.warnAlreadyPlaying]) := by
  intro now ok e hp
  simp [EnterPlayMode, hp]

/-- Witness for C3 (amended) at a concrete playing engine. -/
theorem C3_noop_except_lastFrameTime_witness :
    (samplePlaying.gameState = GameState.Playing ∨
      samplePlaying.gameState = GameState.Loading) ∧
    EnterPlayMode 2 false samplePlaying =
      ({ samplePlaying with lastFrameTime := 2 }, [Event.warnAlreadyPlaying]) :=
  ⟨Or.inl rfl, C3_noop_except_lastFrameTime 2 false samplePlaying (Or.inl rfl)⟩

/-- C2: when a scene path is queued, the state is `Playing`, and the file
exists and deserializes, a single `Tick` performs, in this order: the
outgoing scene's `OnExit`, installation of the new scene as current,
physics reinitialization, the incoming scene's `OnInit`, and finally clears
the pending path; `OnExit` of the old scene and `OnInit` of the new scene
each run exactly once. -/
theorem C2_queued_switch_single_tick :
    ∀ (env : TickEnv) (e : Engine),
      e.gameState = GameState.Playing →
      e.queuedScene ≠ "" →
      env.fileExists e.queuedScene = true →
      ∃ installEvs hookEvs restEvs,
        (Tick env e).2 =
          Event.sceneNew env.freshSceneId ::
            Event.deserialize env.freshSceneId e.queuedScene ::
            Event.sceneOnExit e.currentScene ::
            (installEvs ++ Event.sceneInstalled env.freshSceneId ::
              Event.physicsReInit ::
              Event.sceneOnInit env.freshSceneId env.onInitOk ::
              (hookEvs ++ restEvs)) ∧
        onExitCount (Tick env e).2 = 1 ∧
        onInitCount (Tick env e).2 = 1 ∧
        (Tick env e).1.queuedScene = "" ∧
        (Tick env e).1.currentScene = env.freshSceneId := by
  intro env e hp hq hex
  set e1 : Engine := { e with
    time := env.now
    timeStep := env.now - e.lastFrameTime
    lastFrameTime := env.now } with he1
  have hp1 : e1.gameState = GameState.Playing := hp
  have hq1 : e1.queuedScene ≠ "" := hq
  have hex1 : env.fileExists e1.queuedScene = true := hex
  obtain ⟨pre, hpre, hpreInit, hpreExit, hcur, hqueued, _, _⟩ :=
    setCurrentScene_spec env.freshSceneId e1
  obtain ⟨tail, htail, htailInit, htailExit⟩ :=
    sceneOnInitEvents_spec (SetCurrentScene env.freshSceneId e1).1
      env.freshSceneId env.onInitOk
  have hres := resolveQueuedScene_swap env e1 hp1 hq1 hex1
  have hrest := tickRest_counts (resolveQueuedScene env e1).1
  have hTick2 : (Tick env e).2 =
      (resolveQueuedScene env e1).2 ++
        (tickRest (resolveQueuedScene env e1).1).2 := rfl
  have hTick1 : (Tick env e).1 = (tickRest (resolveQueuedScene env e1).1).1 :=
    rfl
  have hstate := tickRest_state (resolveQueuedScene env e1).1
  have hresolveState : (resolveQueuedScene env e1).1 =
      { (SetCurrentScene env.freshSceneId e1).1 with queuedScene := "" } := by
    rw [hres]
  refine ⟨pre, tail, (tickRest (resolveQueuedScene env e1).1).2, ?_, ?_, ?_,
    ?_, ?_⟩
  · rw [hTick2, hres, htail, hpre]
    simp [e1]
  · rw [hTick2, onExitCount_append, hrest.2.1, hres]
    simp only [hpre, htail]
    simp only [onExitCount, List.countP_cons, List.countP_append]
      at hpreExit htailExit ⊢
    simp [hpreExit, htailExit]
  · rw [hTick2, onInitCount_append, hrest.1, hres]
    simp only [hpre, htail]
    simp only [onInitCount, List.countP_cons, List.countP_append]
      at hpreInit htailInit ⊢
    simp [hpreInit, htailInit]
  · rw [hTick1, hstate]
    simp [hresolveState]
  · rw [hTick1, hstate]
    simp [hresolveState, hcur]

/-- Witness for C2: a concrete queued switch on a playing engine with an
existing file. -/
theorem C2_queued_switch_single_tick_witness :
    (sampleQueued.gameState = GameState.Playing ∧
      sampleQueued.queuedScene ≠ "" ∧
      sampleEnvExists.fileExists sampleQueued.queuedScene = true) ∧
    (∃ installEvs hookEvs restEvs,
      (Tick sampleEnvExists sampleQueued).2 =
        Event.sceneNew sampleEnvExists.freshSceneId ::
          Event.deserialize sampleEnvExists.freshSceneId
            sampleQueued.queuedScene ::
          Event.sceneOnExit sampleQueued.currentScene ::
          (installEvs ++ Event.sceneInstalled sampleEnvExists.freshSceneId ::
            Event.physicsReInit ::
            Event.sceneOnInit sampleEnvExists.freshSceneId
              sampleEnvExists.onInitOk ::
            (hookEvs ++ restEvs)) ∧
      onExitCount (Tick sampleEnvExists sampleQueued).2 = 1 ∧
      onInitCount (Tick sampleEnvExists sampleQueued).2 = 1 ∧
      (Tick sampleEnvExists sampleQueued).1.queuedScene = "" ∧
      (Tick sampleEnvExists sampleQueued).1.currentScene =
        sampleEnvExists.freshSceneId) :=
  ⟨⟨rfl, by simp [sampleQueued, samplePlaying, initialEngine], rfl⟩,
   C2_queued_switch_single_tick sampleEnvExists sampleQueued rfl
     (by simp [sampleQueued, samplePlaying, initialEngine]) rfl⟩

/-- C4: if the current scene's `OnInit` fails during `EnterPlayMode` (after
the state was set to `Loading` and physics was reinitialized), the engine
logs a critical error, calls the scene's `OnExit`, and leaves the game state
at `Loading` — neither rolled back to `Stopped` nor advanced to `Playing`. -/
theorem C4_onInit_failure_leaves_loading :
    ∀ (now : ℚ) (e : Engine), e.gameState = GameState.Stopped →
      (EnterPlayMode now false e).1.gameState = GameState.Loading ∧
      ∃ initEvs,
        (EnterPlayMode now false e).2 =
          Event.setGameState GameState.Loading :: Event.physicsReInit ::
            initEvs ++
            [Event.criticalSceneInitFailed, Event.sceneOnExit e.currentScene] ∧
        onInitCount initEvs = 1 := by
  intro now e hs
  have hp : ¬ (e.gameState = GameState.Playing ∨
      e.gameState = GameState.Loading) := by
    simp [hs]
  refine ⟨by simp [EnterPlayMode, hp], ?_⟩
  refine ⟨sceneOnInitEvents
    { e with lastFrameTime := now, gameState := GameState.Loading }
    e.currentScene false, ?_, ?_⟩
  · simp [EnterPlayMode, hp]
  · unfold sceneOnInitEvents onInitCount
    split
    · simp [List.countP_append, List.countP_map, List.countP_eq_zero]
    · simp

/-- Witness for C4 at a concrete stopped engine. -/
theorem C4_onInit_failure_leaves_loading_witness :
    (initialEngine 5 sampleSubsystems).gameState = GameState.Stopped ∧
    ((EnterPlayMode 3 false (initialEngine 5 sampleSubsystems)).1.gameState =
        GameState.Loading ∧
      ∃ initEvs,
        (EnterPlayMode 3 false (initialEngine 5 sampleSubsystems)).2 =
          Event.setGameState GameState.Loading :: Event.physicsReInit ::
            initEvs ++
            [Event.criticalSceneInitFailed, Event.sceneOnExit
              (initialEngine 5 sampleSubsystems).currentScene] ∧
        onInitCount initEvs = 1) :=
  ⟨rfl, C4_onInit_failure_leaves_loading 3 (initialEngine 5 sampleSubsystems) rfl⟩

/-- C5: `QueueSceneSwitch path` returns `false` and leaves the whole engine
state (the pending path included) unchanged whenever the state is not
`Playing`; when the state is `Playing` it returns `true` and records `path`
as the pending scene path, changing nothing else. -/
theorem C5_queueSceneSwitch_guard :
    ∀ (path : String) (e : Engine),
      (e.gameState ≠ GameState.Playing →
        QueueSceneSwitch path e = (false, e)) ∧
      (e.gameState = GameState.Playing →
        QueueSceneSwitch path e = (true, { e with queuedScene := path })) := by
  intro path e
  constructor
  · intro h
    have : IsPlayMode e = false := by
      unfold IsPlayMode
      cases hs : e.gameState <;> simp_all
    simp [QueueSceneSwitch, this]
  · intro h
    simp [QueueSceneSwitch, IsPlayMode, h]

/-- Witness for C5: concrete stopped and playing engines. -/
theorem C5_queueSceneSwitch_guard_witness :
    ((initialEngine 5 []).gameState ≠ GameState.Playing ∧
      QueueSceneSwitch "a.scene" (initialEngine 5 []) =
        (false, initialEngine 5 [])) ∧
    (samplePlaying.gameState = GameState.Playing ∧
      QueueSceneSwitch "a.scene" samplePlaying =
        (true, { samplePlaying with queuedScene := "a.scene" })) :=
  ⟨⟨by simp [initialEngine],
    (C5_queueSceneSwitch_guard "a.scene" (initialEngine 5 [])).1
      (by simp [initialEngine])⟩,
   ⟨rfl, (C5_queueSceneSwitch_guard "a.scene" samplePlaying).2 rfl⟩⟩

/-- C6: if the pending scene path names a file that does not exist, then for
any number of consecutive `Tick` calls the pending path stays recorded, no
scene swap occurs (no `OnExit`/`OnInit`, no installation, no physics
reinitialization from the swap logic, current scene untouched), and
`QueueSceneSwitch` never surfaces an error to its caller: its return value
in play mode is `true` regardless of the filesystem (which it never
consults). -/
theorem C6_missing_file_retries_silently :
    (∀ (envs : List TickEnv) (e : Engine) (p : String),
      e.queuedScene = p →
      (∀ env ∈ envs, env.fileExists p = false) →
      (runTicks envs e).1.queuedScene = p ∧
      (runTicks envs e).1.currentScene = e.currentScene ∧
      swapEventCount (runTicks envs e).2 = 0) ∧
    (∀ (path : String) (e : Engine), e.gameState = GameState.Playing →
      (QueueSceneSwitch path e).1 = true) := by
  constructor
  · intro envs
    induction envs with
    | nil =>
      intro e p hq _
      exact ⟨hq, rfl, rfl⟩
    | cons env envs ih =>
      intro e p hq hex
      have hstep := tick_no_swap_step env e
        (Or.inr (Or.inr (by rw [hq]; exact hex env (List.mem_cons_self env envs))))
      have hrec := ih (Tick env e).1 p (by rw [hstep.1, hq])
        (fun env' h' => hex env' (List.mem_cons_of_mem env h'))
      have hrun1 : (runTicks (env :: envs) e).1 =
          (runTicks envs (Tick env e).1).1 := rfl
      have hrun2 : (runTicks (env :: envs) e).2 =
          (Tick env e).2 ++ (runTicks envs (Tick env e).1).2 := rfl
      refine ⟨?_, ?_, ?_⟩
      · rw [hrun1]
        exact hrec.1
      · rw [hrun1, hrec.2.1, hstep.2.1]
      · rw [hrun2, swapEventCount_append, hstep.2.2, hrec.2.2]
  · intro path e h
    simp [QueueSceneSwitch, IsPlayMode, h]

/-- Witness for C6: one tick over a missing file on a concrete queued
engine. -/
theorem C6_missing_file_retries_silently_witness :
    (sampleQueued.queuedScene = "scenes/next.scene" ∧
      (∀ env ∈ [sampleEnvMissing],
        env.fileExists "scenes/next.scene" = false) ∧
      sampleQueued.gameState = GameState.Playing) ∧
    ((runTicks [sampleEnvMissing] sampleQueued).1.queuedScene =
        "scenes/next.scene" ∧
      (runTicks [sampleEnvMissing] sampleQueued).1.currentScene =
        sampleQueued.currentScene ∧
      swapEventCount (runTicks [sampleEnvMissing] sampleQueued).2 = 0) ∧
    (QueueSceneSwitch "scenes/next.scene" sampleQueued).1 = true :=
  ⟨⟨rfl, by intro env h; simp [List.mem_singleton] at h; rw [h]; rfl, rfl⟩,
   C6_missing_file_retries_silently.1 [sampleEnvMissing] sampleQueued
     "scenes/next.scene" rfl
     (by intro env h; simp [List.mem_singleton] at h; rw [h]; rfl),
   C6_missing_file_retries_silently.2 "scenes/next.scene" sampleQueued rfl⟩

/-- C7: entering the drain loop with an accumulated difference of
`2.5 * fixedUpdateRate` runs the fixed-rate update exactly twice and leaves
the accumulator in `[0, fixedUpdateRate)`; in general the loop decrements
the accumulator by `fixedUpdateRate` per iteration, never leaves it
negative, and `Tick` feeds it from the *unscaled* `timeStep`. -/
theorem C7_fixed_update_drain :
    ((fixedUpdateDrain (5 / 2 * fixedUpdateRate)).2 = 2 ∧
      0 ≤ (fixedUpdateDrain (5 / 2 * fixedUpdateRate)).1 ∧
      (fixedUpdateDrain (5 / 2 * fixedUpdateRate)).1 < fixedUpdateRate) ∧
    (∀ d : ℚ,
      (fixedUpdateDrain d).1 = d - (fixedUpdateDrain d).2 * fixedUpdateRate) ∧
    (∀ d : ℚ, 0 ≤ d → 0 ≤ (fixedUpdateDrain d).1) ∧
    (∀ (env : TickEnv) (e : Engine),
      (Tick env e).1.fixedUpdateDifference =
        (fixedUpdateDrain
          (e.fixedUpdateDifference + (env.now - e.lastFrameTime))).1) := by
  have hconc : fixedUpdateDrain (5 / 2 * fixedUpdateRate) =
      (fixedUpdateRate / 2, 2) := by
    have h0 : (0 : ℚ) ≤ fixedUpdateRate / 2 := by
      norm_num [fixedUpdateRate]
    have h1 : fixedUpdateRate / 2 < fixedUpdateRate := by
      norm_num [fixedUpdateRate]
    have h2 := fixedUpdateDrain_add_nat 2 (fixedUpdateRate / 2) h0 h1
    have heq : fixedUpdateRate / 2 + (2 : Nat) * fixedUpdateRate =
        5 / 2 * fixedUpdateRate := by
      push_cast
      ring
    rw [heq] at h2
    exact h2
  refine ⟨⟨by rw [hconc], by rw [hconc]; norm_num [fixedUpdateRate],
    by rw [hconc]; norm_num [fixedUpdateRate]⟩, ?_, ?_, ?_⟩
  · intro d
    exact (fixedUpdateDrain_spec d).1
  · intro d h
    exact (fixedUpdateDrain_spec d).2.2 h
  · intro env e
    set e1 : Engine := { e with
      time := env.now
      timeStep := env.now - e.lastFrameTime
      lastFrameTime := env.now } with he1
    have hTick1 : (Tick env e).1 =
        (tickRest (resolveQueuedScene env e1).1).1 := rfl
    have ht := resolveQueuedScene_timing env e1
    rw [hTick1, tickRest_state]
    simp [ht.1, ht.2.1]

/-- Witness for C7: the never-negative clause at the concrete
accumulator value `3`. -/
theorem C7_fixed_update_drain_witness :
    (0 : ℚ) ≤ 3 ∧ 0 ≤ (fixedUpdateDrain 3).1 :=
  ⟨by norm_num, C7_fixed_update_drain.2.2.1 3 (by norm_num)⟩

/-- C8 evaluation: the drain loop of `Tick` has no iteration cap and no
clamp on the accumulated difference — for every bound there is a frame
whose accumulated difference makes the loop run more often than the bound
(`n * fixedUpdateRate` yields exactly `n` iterations; concretely,
`100 * fixedUpdateRate` yields `100`). -/
theorem C8_drain_loop_unbounded :
    (∀ bound : Nat, ∃ diff : ℚ, bound < (fixedUpdateDrain diff).2) ∧
    (fixedUpdateDrain (100 * fixedUpdateRate)).2 = 100 := by
  have hcount : ∀ n : Nat,
      (fixedUpdateDrain ((n : ℚ) * fixedUpdateRate)).2 = n := by
    intro n
    have h := fixedUpdateDrain_add_nat n 0 le_rfl fixedUpdateRate_pos
    rw [zero_add] at h
    rw [h]
  constructor
  · intro bound
    refine ⟨((bound + 1 : Nat) : ℚ) * fixedUpdateRate, ?_⟩
    rw [hcount (bound + 1)]
    omega
  · have h := hcount 100
    norm_num at h
    exact h

/-- C9 evaluation at the failing input: on an engine as left by
`Engine::Init` (the subscription of `Engine::OnWindowSetScene` to the
window's signal is commented out, so no handler is registered) with live
subsystems, a queued-switch `Tick` installs the new scene yet fires no
`OnScenePreDestroy`, `OnScenePreInitialize` or `OnScenePostInitialize`
broadcast to any subsystem, contradicting the claim that every scene
installation fires them. -/
theorem C9_scene_swap_fires_no_broadcasts :
    sampleQueued.windowSetSceneHandlerRegistered = false ∧
    sampleQueued.subsystems ≠ [] ∧
    installedCount (Tick sampleEnvExists sampleQueued).2 = 1 ∧
    broadcastCount (Tick sampleEnvExists sampleQueued).2 = 0 := by
  have hd : fixedUpdateDrain 0 = (0, 0) :=
    fixedUpdateDrain_of_lt 0 fixedUpdateRate_pos
  refine ⟨rfl, by simp [sampleQueued, samplePlaying, initialEngine,
    sampleSubsystems], ?_, ?_⟩ <;>
  · simp [Tick, resolveQueuedScene, tickRest, SetCurrentScene,
      OnWindowSetScene, sceneOnInitEvents, sampleQueued, samplePlaying,
      sampleEnvExists, initialEngine, sampleSubsystems, IsPlayMode,
      installedCount, broadcastCount, hd]

/-- C10: while `Playing`, `QueueSceneSwitch` unconditionally overwrites any
previously pending path (last write wins) and returns `true` — including
for the empty string, which cancels a pending switch because `Tick` treats
an empty pending path as no pending switch (keeps the current scene,
performs no swap effect). -/
theorem C10_queue_overwrites_empty_cancels :
    (∀ (e : Engine) (path : String), e.gameState = GameState.Playing →
      QueueSceneSwitch path e = (true, { e with queuedScene := path })) ∧
    (∀ (env : TickEnv) (e : Engine), e.queuedScene = "" →
      (Tick env e).1.queuedScene = "" ∧
      (Tick env e).1.currentScene = e.currentScene ∧
      swapEventCount (Tick env e).2 = 0) := by
  constructor
  · intro e path h
    simp [QueueSceneSwitch, IsPlayMode, h]
  · intro env e h
    have hstep := tick_no_swap_step env e (Or.inr (Or.inl h))
    exact ⟨by rw [hstep.1, h], hstep.2.1, hstep.2.2⟩

/-- Witness for C10: overwriting a pending path with `""` on a concrete
playing engine, then ticking. -/
theorem C10_queue_overwrites_empty_cancels_witness :
    (sampleQueued.gameState = GameState.Playing ∧
      QueueSceneSwitch "" sampleQueued =
        (true, { sampleQueued with queuedScene := "" })) ∧
    ({ sampleQueued with queuedScene := "" }.queuedScene = "" ∧
      (Tick sampleEnvExists { sampleQueued with
        queuedScene := "" }).1.queuedScene = "" ∧
      (Tick sampleEnvExists { sampleQueued with
        queuedScene := "" }).1.currentScene =
        { sampleQueued with queuedScene := "" }.currentScene ∧
      swapEventCount (Tick sampleEnvExists { sampleQueued with
        queuedScene := "" }).2 = 0) :=
  ⟨⟨rfl, C10_queue_overwrites_empty_cancels.1 sampleQueued "" rfl⟩,
   ⟨rfl, C10_queue_overwrites_empty_cancels.2 sampleEnvExists
     { sampleQueued with queuedScene := "" } rfl⟩⟩

end Nuake
